import Mathlib

/-!
Verification development for the multi-stage LLM logic-verification pipeline
(`llm-logic-verification-chain`).

The Python sources are embedded shallowly:

* Python/JSON values are modelled by `PyObj`; numeric literals are kept
  verbatim (the pipeline never computes with parsed numbers).
* `LLMClient.parse_json_response` (src/llm_client.py) is embedded including
  its three degradation tiers: a strict JSON parse, a regex-repair pass that
  normalises line breaks inside the `reasoning` field, and a best-effort
  field extraction.
* The provider call hidden behind `LLMClient.call_model` (network, retries,
  backoff) is abstracted as an oracle `LLMOracle`; the availability check
  that `call_model` performs before contacting a provider is embedded
  faithfully from `Config.is_model_available`.
* The four layer classes and the two orchestrators are embedded as pure
  functions that additionally return the list of model identifiers passed
  to the provider oracle, so that "stage X was (not) invoked for item Y"
  becomes a statement about that list.
-/

/-- A Python value as produced by `json.loads` and passed around between the
layers.  `num` keeps the numeric literal verbatim: the pipeline never does
arithmetic on parsed numbers, so no numeric semantics is needed.  `null` is
both JSON `null` and Python `None`. -/
inductive PyObj where
  | str (s : String)
  | num (lit : String)
  | bool (b : Bool)
  | null
  | arr (xs : List PyObj)
  | obj (kvs : List (String × PyObj))
deriving Repr

mutual

/-- Structural equality of values, standing in for Python `==`.  On the
string-valued fields the pipeline actually compares (verdicts, model
identifiers) it agrees with Python; Python's numeric cross-type equalities
(`True == 1`, `1 == 1.0`) are not modelled. -/
def pyBeq : PyObj → PyObj → Bool
  | .str a, .str b => a = b
  | .num a, .num b => a = b
  | .bool a, .bool b => a = b
  | .null, .null => true
  | .arr xs, .arr ys => pyBeqList xs ys
  | .obj xs, .obj ys => pyBeqKVs xs ys
  | _, _ => false

def pyBeqList : List PyObj → List PyObj → Bool
  | [], [] => true
  | x :: xs, y :: ys => pyBeq x y && pyBeqList xs ys
  | _, _ => false

def pyBeqKVs : List (String × PyObj) → List (String × PyObj) → Bool
  | [], [] => true
  | (k, v) :: xs, (k', v') :: ys => k = k' && pyBeq v v' && pyBeqKVs xs ys
  | _, _ => false

end

/-- Key lookup in a parsed JSON object (Python `dict` with string keys,
insertion ordered, keys unique). -/
def lookupKey : List (String × PyObj) → String → Option PyObj
  | [], _ => Option.none
  | (k', v) :: rest, k => if k' = k then some v else lookupKey rest k

/-- Python `key in d` for a dict. -/
def PyObj.hasKey : PyObj → String → Bool
  | .obj kvs, k => (lookupKey kvs k).isSome
  | _, _ => false

/-- Python `d.get(key, default)` for a dict. -/
def objGetD (kvs : List (String × PyObj)) (k : String) (d : PyObj) : PyObj :=
  (lookupKey kvs k).getD d

/-- `d[k] = v` on a Python dict: update in place if present, else append. -/
def upsertKV : List (String × PyObj) → String → PyObj → List (String × PyObj)
  | [], k, v => [(k, v)]
  | (k', v') :: rest, k, v =>
      if k' = k then (k', v) :: rest else (k', v') :: upsertKV rest k v

/-- Python `str()` of a value, as used when records are interpolated into
prompt text.  The exact rendering of containers is irrelevant to every
theorem below (prompts are only ever handed to the oracle), so containers
are rendered schematically. -/
def pyToStr : PyObj → String
  | .str s => s
  | .num l => l
  | .bool b => if b then "True" else "False"
  | .null => "None"
  | .arr _ => "<list>"
  | .obj _ => "<dict>"

/-- Python truthiness, used by `DecisionLayer._prepare_decision_context`
(`if verification['error_reason']:`).  Numeric literals are approximated as
truthy iff they contain a nonzero digit; this only influences prompt text. -/
def pyTruthy : PyObj → Bool
  | .str s => s ≠ ""
  | .num l => l.toList.any (fun c => c.isDigit ∧ c ≠ '0')
  | .bool b => b
  | .null => false
  | .arr xs => !xs.isEmpty
  | .obj kvs => !kvs.isEmpty

/-! ### Strict JSON parse (`json.loads`)

A recursive-descent parser for the JSON grammar accepted by Python's
`json.loads` on the inputs this pipeline sees: objects, arrays, strings
with the standard escapes, numbers, `true`/`false`/`null`.  As in Python's
strict mode, raw control characters inside string literals are rejected —
this is exactly what makes LLM output with literal line breaks inside the
`reasoning` field fail the strict tier.  (The non-standard `NaN`/`Infinity`
extensions of `json.loads` are not modelled.)  The parser is fuelled; the
fuel chosen in `json_loads` always suffices because every recursive call
consumes input. -/

/-- JSON whitespace (what `json.loads` skips between tokens). -/
def isJsonWs (c : Char) : Bool := c = ' ' ∨ c = '\t' ∨ c = '\n' ∨ c = '\r'

/-- Python regex `\s` / `str.strip` whitespace (ASCII part). -/
def isPyWs (c : Char) : Bool :=
  c = ' ' ∨ c = '\t' ∨ c = '\n' ∨ c = '\r' ∨ c = '\x0b' ∨ c = '\x0c'

def skipWs : List Char → List Char
  | [] => []
  | c :: cs => if isJsonWs c then skipWs cs else c :: cs

def hexVal (c : Char) : Option Nat :=
  if '0' ≤ c ∧ c ≤ '9' then some (c.toNat - '0'.toNat)
  else if 'a' ≤ c ∧ c ≤ 'f' then some (c.toNat - 'a'.toNat + 10)
  else if 'A' ≤ c ∧ c ≤ 'F' then some (c.toNat - 'A'.toNat + 10)
  else Option.none

def parseHex4 : List Char → Option (Nat × List Char)
  | a :: b :: c :: d :: rest => do
      let x ← hexVal a
      let y ← hexVal b
      let z ← hexVal c
      let w ← hexVal d
      pure (((x * 16 + y) * 16 + z) * 16 + w, rest)
  | _ => Option.none

/-- JSON string literal body (opening quote already consumed). -/
def parseJStr : Nat → List Char → List Char → Option (String × List Char)
  | 0, _, _ => Option.none
  | _ + 1, _, [] => Option.none
  | f + 1, acc, c :: cs =>
    if c = '"' then some (String.mk acc.reverse, cs)
    else if c.toNat < 32 then Option.none
    else if c = '\\' then
      match cs with
      | [] => Option.none
      | e :: cs' =>
        if e = '"' then parseJStr f ('"' :: acc) cs'
        else if e = '\\' then parseJStr f ('\\' :: acc) cs'
        else if e = '/' then parseJStr f ('/' :: acc) cs'
        else if e = 'b' then parseJStr f ('\x08' :: acc) cs'
        else if e = 'f' then parseJStr f ('\x0c' :: acc) cs'
        else if e = 'n' then parseJStr f ('\n' :: acc) cs'
        else if e = 'r' then parseJStr f ('\r' :: acc) cs'
        else if e = 't' then parseJStr f ('\t' :: acc) cs'
        else if e = 'u' then
          match parseHex4 cs' with
          | some (n, rest) =>
              if h : n.isValidChar then parseJStr f (Char.ofNatAux n h :: acc) rest
              else Option.none
          | Option.none => Option.none
        else Option.none
    else parseJStr f (c :: acc) cs

/-- JSON number literal, kept verbatim. -/
def parseJNum (cs : List Char) : Option (String × List Char) :=
  let (neg, cs1) : List Char × List Char :=
    match cs with
    | '-' :: r => (['-'], r)
    | _ => ([], cs)
  match cs1 with
  | [] => Option.none
  | c :: _ =>
    if ¬ c.isDigit then Option.none
    else
      let (intPart, cs2) := cs1.span (fun c => c.isDigit)
      if intPart.length > 1 ∧ intPart.head? = some '0' then Option.none
      else
        let fracRes : Option (List Char × List Char) :=
          match cs2 with
          | '.' :: r =>
              let (ds, r') := r.span (fun c => c.isDigit)
              if ds.isEmpty then Option.none else some ('.' :: ds, r')
          | _ => some ([], cs2)
        match fracRes with
        | Option.none => Option.none
        | some (fracPart, cs3) =>
          let expRes : Option (List Char × List Char) :=
            match cs3 with
            | e :: r =>
                if e = 'e' ∨ e = 'E' then
                  let (sign, r1) : List Char × List Char :=
                    match r with
                    | s :: r' => if s = '+' ∨ s = '-' then ([s], r') else ([], r)
                    | [] => ([], [])
                  let (ds, r2) := r1.span (fun c => c.isDigit)
                  if ds.isEmpty then Option.none else some (e :: (sign ++ ds), r2)
                else some ([], cs3)
            | [] => some ([], [])
          match expRes with
          | Option.none => Option.none
          | some (expPart, cs4) =>
              some (String.mk (neg ++ intPart ++ fracPart ++ expPart), cs4)

mutual

/-- JSON value. -/
def parseJVal : Nat → List Char → Option (PyObj × List Char)
  | 0, _ => Option.none
  | f + 1, cs =>
    match skipWs cs with
    | [] => Option.none
    | c :: rest =>
      if c = '"' then
        match parseJStr (rest.length + 1) [] rest with
        | some (s, r) => some (.str s, r)
        | Option.none => Option.none
      else if c = '{' then parseJObj f rest
      else if c = '[' then parseJArr f rest
      else if c = 't' then
        match rest with
        | 'r' :: 'u' :: 'e' :: r => some (.bool true, r)
        | _ => Option.none
      else if c = 'f' then
        match rest with
        | 'a' :: 'l' :: 's' :: 'e' :: r => some (.bool false, r)
        | _ => Option.none
      else if c = 'n' then
        match rest with
        | 'u' :: 'l' :: 'l' :: r => some (.null, r)
        | _ => Option.none
      else
        match parseJNum (c :: rest) with
        | some (l, r) => some (.num l, r)
        | Option.none => Option.none

/-- JSON object (the `\x7b` already consumed). -/
def parseJObj : Nat → List Char → Option (PyObj × List Char)
  | 0, _ => Option.none
  | f + 1, cs =>
    match skipWs cs with
    | '}' :: r => some (.obj [], r)
    | rest => parseJMembers f rest []

/-- Members of a JSON object; duplicate keys overwrite (Python dict). -/
def parseJMembers : Nat → List Char → List (String × PyObj) →
    Option (PyObj × List Char)
  | 0, _, _ => Option.none
  | f + 1, cs, acc =>
    match skipWs cs with
    | '"' :: r =>
      match parseJStr (r.length + 1) [] r with
      | Option.none => Option.none
      | some (k, r1) =>
        match skipWs r1 with
        | ':' :: r2 =>
          match parseJVal f r2 with
          | Option.none => Option.none
          | some (v, r3) =>
            let acc' := upsertKV acc k v
            match skipWs r3 with
            | ',' :: r4 => parseJMembers f r4 acc'
            | '}' :: r4 => some (.obj acc', r4)
            | _ => Option.none
        | _ => Option.none
    | _ => Option.none

/-- JSON array (the `[` already consumed). -/
def parseJArr : Nat → List Char → Option (PyObj × List Char)
  | 0, _ => Option.none
  | f + 1, cs =>
    match skipWs cs with
    | ']' :: r => some (.arr [], r)
    | rest => parseJElems f rest []

/-- Elements of a JSON array. -/
def parseJElems : Nat → List Char → List PyObj → Option (PyObj × List Char)
  | 0, _, _ => Option.none
  | f + 1, cs, acc =>
    match parseJVal f cs with
    | Option.none => Option.none
    | some (v, r) =>
      match skipWs r with
      | ',' :: r1 => parseJElems f r1 (acc ++ [v])
      | ']' :: r1 => some (.arr (acc ++ [v]), r1)
      | _ => Option.none

end

/-- `json.loads`: parse the whole input as one JSON value (trailing
whitespace allowed, anything else is a `JSONDecodeError`, i.e. `none`). -/
def json_loads (s : String) : Option PyObj :=
  match parseJVal (3 * s.length + 3) s.toList with
  | some (v, rest) => if skipWs rest = [] then some v else Option.none
  | Option.none => Option.none

/-! ### The repair tier of `LLMClient.parse_json_response`

On strict-parse failure the source locates an embedded JSON block with
`re.search(r'\x7b.*\x7d', response_text, re.DOTALL)` and rewrites every
occurrence of `"reasoning":\s*"([^"]*(?:\\.[^"]*)*)"` so that line breaks
inside the captured field become single spaces.

Regex semantics embedded here:

* `\x7b.*\x7d` with DOTALL and leftmost-greedy matching selects the span
  from the first `\x7b` of the text to the last `\x7d`, provided the
  latter comes after the former; otherwise there is no match.
* In `[^"]*(?:\\.[^"]*)*` the leading `[^"]*` is greedy and only stops at
  a quote or at the end of input, after which `\\.` can never match (the
  next character is `"` or absent), so the group always captures exactly
  the maximal run of non-quote characters after the opening quote, and the
  closing `"` must follow it.  The backtracking engine returns this first
  successful alternative, hence the `(?:\\.[^"]*)*` tail is inert. -/

/-- Embeds `re.search(r'\x7b.*\x7d', s, re.DOTALL)`: the substring from
the first `\x7b` to the last `\x7d` (inclusive), when nonempty. -/
def extractJsonBlock (s : String) : Option String :=
  let cs := s.toList
  match cs.findIdx? (fun c => c = '{'), cs.reverse.findIdx? (fun c => c = '}') with
  | some i, some jr =>
      let j := cs.length - 1 - jr
      if i < j then some (String.mk ((cs.drop i).take (j - i + 1))) else Option.none
  | _, _ => Option.none

/-- Consume a literal character sequence. -/
def stripLit : List Char → List Char → Option (List Char)
  | [], cs => some cs
  | _, [] => Option.none
  | p :: ps, c :: cs => if p = c then stripLit ps cs else Option.none

/-- `"reasoning":` as a character sequence. -/
def reasoningKey : List Char := "\"reasoning\":".toList

/-- `"answer":` as a character sequence. -/
def answerKey : List Char := "\"answer\":".toList

/-- Try to match `"reasoning":\s*"([^"]*(?:\\.[^"]*)*)"` at the head of the
input; return the captured group and the remainder after the match. -/
def matchReasoningField (cs : List Char) : Option (List Char × List Char) :=
  match stripLit reasoningKey cs with
  | Option.none => Option.none
  | some r1 =>
    match r1.dropWhile isPyWs with
    | '"' :: r3 =>
      let p := r3.span (fun c => ¬ c = '"')
      match p.2 with
      | '"' :: r4 => some (p.1, r4)
      | _ => Option.none
    | _ => Option.none

/-- Body of the source's `fix_reasoning`: replace `\n`/`\r` by spaces. -/
def replaceNlCr (cs : List Char) : List Char :=
  cs.map (fun c => if c = '\n' ∨ c = '\r' then ' ' else c)

/-- `re.sub(r'\s+', ' ', ...)`: collapse each maximal whitespace run to a
single space.  The `prevWs` flag records whether the previous character
belonged to a run already collapsed. -/
def collapseWsAux (prevWs : Bool) : List Char → List Char
  | [] => []
  | c :: cs =>
    if isPyWs c then
      if prevWs then collapseWsAux true cs else ' ' :: collapseWsAux true cs
    else c :: collapseWsAux false cs

/-- Python `str.strip()` (ASCII whitespace). -/
def pyStrip (cs : List Char) : List Char :=
  ((cs.dropWhile isPyWs).reverse.dropWhile isPyWs).reverse

/-- The repaired field content produced by `fix_reasoning`. -/
def fixReasoningContent (grp : List Char) : List Char :=
  pyStrip (collapseWsAux false (replaceNlCr grp))

/-- The replacement text `"reasoning": "<fixed>"`. -/
def reasoningReplacement (grp : List Char) : List Char :=
  "\"reasoning\": \"".toList ++ fixReasoningContent grp ++ ['"']

/-- `re.sub` over the whole text: scan left to right, replace each match,
continue after it.  The fuel is the input length; every step consumes at
least one character. -/
def subFixReasoning : Nat → List Char → List Char
  | 0, cs => cs
  | f + 1, cs =>
    match cs with
    | [] => []
    | c :: rest =>
      match matchReasoningField cs with
      | some (grp, after) => reasoningReplacement grp ++ subFixReasoning f after
      | Option.none => c :: subFixReasoning f rest

/-- The repaired re-parse tier: extract the brace block, rewrite the
`reasoning` field, and strict-parse the result. -/
def repairedParse (s : String) : Option PyObj :=
  match extractJsonBlock s with
  | Option.none => Option.none
  | some jt => json_loads (String.mk (subFixReasoning jt.toList.length jt.toList))

/-! ### The best-effort tier -/

/-- Match `"answer":\s*"([^"]*)"` at the head of the input, returning the
captured group. -/
def matchAnswerField (cs : List Char) : Option (List Char) :=
  match stripLit answerKey cs with
  | Option.none => Option.none
  | some r1 =>
    match r1.dropWhile isPyWs with
    | '"' :: r3 =>
      let p := r3.span (fun c => ¬ c = '"')
      match p.2 with
      | '"' :: _ => some p.1
      | _ => Option.none
    | _ => Option.none

/-- `re.search` of the answer pattern: first matching position. -/
def searchAnswerField : List Char → Option (List Char)
  | [] => Option.none
  | c :: rest =>
    match matchAnswerField (c :: rest) with
    | some g => some g
    | Option.none => searchAnswerField rest

/-- Match `"reasoning":\s*"([^"]{0,100})` at the head of the input: up to
100 non-quote characters, no closing quote required. -/
def matchReasoningPrefixField (cs : List Char) : Option (List Char) :=
  match stripLit reasoningKey cs with
  | Option.none => Option.none
  | some r1 =>
    match r1.dropWhile isPyWs with
    | '"' :: r3 => some ((r3.span (fun c => ¬ c = '"')).1.take 100)
    | _ => Option.none

/-- `re.search` of the reasoning-prefix pattern. -/
def searchReasoningPrefixField : List Char → Option (List Char)
  | [] => Option.none
  | c :: rest =>
    match matchReasoningPrefixField (c :: rest) with
    | some g => some g
    | Option.none => searchReasoningPrefixField rest

/-- The best-effort extraction tier of `parse_json_response`.  Its body is
total (the underlying Python block consists of `re.search`/`group`/string
concatenation, none of which can raise on a `str` argument), so the source's
trailing `except: pass` and the final `{'error': ...}` return are dead
code; claim C10 is about exactly this. -/
def best_effort_extraction (s : String) : PyObj :=
  let cs := s.toList
  let answer :=
    match searchAnswerField cs with
    | some g => String.mk g
    | Option.none => "解析失敗"
  let reasoning :=
    match searchReasoningPrefixField cs with
    | some g => String.mk g
    | Option.none => "推理過程解析失敗"
  .obj [("answer", .str answer),
        ("reasoning", .str (reasoning ++ "...(JSON格式錯誤，僅提取部分內容)")),
        ("parse_warning", .bool true)]

/-- `LLMClient.parse_json_response` (src/llm_client.py 134-193): strict
parse, then brace-block extraction plus reasoning repair and re-parse,
then best-effort extraction.  (If no brace block is found the source falls
through its second `try` without raising, again reaching the best-effort
tier.) -/
def parse_json_response (s : String) : PyObj :=
  match json_loads s with
  | some v => v
  | Option.none =>
    match repairedParse s with
    | some v => v
    | Option.none => best_effort_extraction s

/-! ### Configuration (src/config.py) -/

/-- `Config.AVAILABLE_MODELS`: provider → list of (model key, provider
model name). -/
def AVAILABLE_MODELS : List (String × List (String × String)) :=
  [("openai",
     [("gpt-4o", "gpt-4o"), ("gpt-4o-mini", "gpt-4o-mini"),
      ("gpt-4-turbo", "gpt-4-turbo"), ("gpt-3.5-turbo", "gpt-3.5-turbo")]),
   ("anthropic",
     [("claude-3-5-sonnet", "claude-3-5-sonnet-20241022"),
      ("claude-3-haiku", "claude-3-haiku-20240307"),
      ("claude-3-opus", "claude-3-opus-20240229")]),
   ("google",
     [("gemini-pro", "gemini-1.5-pro"), ("gemini-flash", "gemini-1.5-flash")]),
   ("groq",
     [("llama-3-70b-8192", "llama3-70b-8192"),
      ("llama-3.3-70b", "llama-3.3-70b-versatile")]),
   ("openrouter",
     [("deepseek-r1", "deepseek/deepseek-r1-0528-qwen3-8b:free"),
      ("gemini-2-flash", "google/gemini-2.0-flash-exp:free"),
      ("mistral-7b", "mistralai/mistral-7b-instruct:free")])]

def DEFAULT_ANSWERING_MODELS : List String :=
  ["groq/llama-3-70b-8192", "groq/llama-3.3-70b"]

def DEFAULT_VERIFICATION_MODELS : List String :=
  ["groq/llama-3-70b-8192", "groq/llama-3.3-70b"]

def DEFAULT_CORRECTION_MODEL : String := "groq/llama-3-70b-8192"

def DEFAULT_DECISION_MODEL : String := "groq/llama-3.3-70b"

/-- Python `s.split(sep)` for a one-character separator: split on every
occurrence, keeping empty fields (`""` splits to `[""]`). -/
def splitChars (sep : Char) : List Char → List (List Char)
  | [] => [[]]
  | c :: cs =>
    let r := splitChars sep cs
    if c = sep then [] :: r
    else
      match r with
      | h :: t => (c :: h) :: t
      | [] => [[c]]

/-- `model_key.split('/')`. -/
def splitSlash (model_key : String) : List String :=
  (splitChars '/' model_key.toList).map String.mk

/-- `Config.is_model_available`: `provider, model = model_key.split('/')`
(the destructuring raises unless the split yields exactly two parts, and
the `except` returns `False`), then membership in the registry. -/
def is_model_available (model_key : String) : Bool :=
  match splitSlash model_key with
  | [provider, model] =>
    match AVAILABLE_MODELS.find? (fun p => p.1 = provider) with
    | some (_, models) => (models.find? (fun m => m.1 = model)).isSome
    | Option.none => false
  | _ => false

/-- `VerificationLayer._get_model_short_name`: the part after the provider
prefix; the bare key if the split does not yield exactly two parts. -/
def get_model_short_name (model_key : String) : String :=
  match splitSlash model_key with
  | [_, model] => model
  | _ => model_key

/-! ### The Model Invocation Service boundary (src/llm_client.py) -/

/-- The outcome of one provider invocation, as `LLMClient.call_model`
reports it: `response` is meaningful when `success` is true, `error` when
it is false (`usage` metadata is not modelled — no claim touches it). -/
structure CallResult where
  success : Bool
  response : String
  error : String
deriving Repr, DecidableEq

/-- The provider behind aisuite, abstracted: model identifier and prompt in,
terminal result of the retry loop out.  `call_model`'s retry/backoff loop
always ends in one terminal `CallResult`, which is what the oracle
returns. -/
def LLMOracle : Type := String → String → CallResult

/-- `LLMClient.call_model` minus the retry loop: the availability gate that
runs before any provider traffic, then the oracle.  The second component
lists the model identifiers actually sent to the provider. -/
def call_model (oracle : LLMOracle) (model_key prompt : String) :
    CallResult × List String :=
  if is_model_available model_key then (oracle model_key prompt, [model_key])
  else ({success := false, response := "",
         error := "Model " ++ model_key ++ " is not available"}, [])

/-- Python `template.format(**kwargs)` for the simple named placeholders
the prompt templates use: each `\x7bname\x7d` is replaced by its value. -/
def pyFormat (template : String) (args : List (String × String)) : String :=
  args.foldl (fun acc kv => acc.replace ("\x7b" ++ kv.1 ++ "\x7d") kv.2) template

/-- Stands in for Python's `str(e)` on the exceptions the layers catch when
a parse result is not a dict (then both `'error' in parsed` on a str/list
hit and the subsequent `['error']`/`.get` raise `TypeError` or
`AttributeError`).  The exact message text is never inspected. -/
def pyExnMsg : String := "unhandled exception while processing parsed response"

/-! ### Answering layer (src/layers/answering_layer.py) -/

/-- One answer record.  The Python dicts of the three branches are
flattened into one structure; keys absent in a branch are `Option.none`
(`answer`/`reasoning` are explicitly `None` in the failure branches). -/
structure AnswerRecord where
  model : String
  success : Bool
  answer : PyObj := PyObj.null
  reasoning : PyObj := PyObj.null
  error : Option PyObj := Option.none
  raw_response : Option PyObj := Option.none
deriving Repr

/-- `AnsweringLayer._get_model_answer`.  A parse result that is not a dict
makes the source raise (`'error' in parsed` on a str/list either answers
the membership test and then `parsed['error']` raises `TypeError`, or
`.get` raises `AttributeError`); the enclosing `except` turns every such
case into the failure record of the final branch. -/
def get_model_answer (oracle : LLMOracle) (model prompt : String) :
    AnswerRecord × List String :=
  let rc := call_model oracle model prompt
  let response := rc.1
  if response.success = false then
    ({model := model, success := false, error := some (.str response.error)}, rc.2)
  else
    match parse_json_response response.response with
    | .obj kvs =>
      if (lookupKey kvs "error").isSome then
        ({model := model, success := false,
          error := some ((lookupKey kvs "error").getD .null),
          raw_response := some (objGetD kvs "raw_response" (.str ""))}, rc.2)
      else
        ({model := model, success := true,
          answer := objGetD kvs "answer" (.str ""),
          reasoning := objGetD kvs "reasoning" (.str ""),
          raw_response := some (.str response.response)}, rc.2)
    | _ =>
      ({model := model, success := false, error := some (.str pyExnMsg)}, rc.2)

/-- `AnsweringLayer.process_question`: resolve the default model list, fill
the prompt once, then call each *available* model in order; models that
fail the availability check are skipped without a record and without any
provider traffic. -/
def answering_process_question (oracle : LLMOracle) (template question : String)
    (models : Option (List String)) : List AnswerRecord × List String :=
  let ms := models.getD DEFAULT_ANSWERING_MODELS
  let prompt := pyFormat template [("question", question)]
  let per := ms.filterMap (fun m =>
    if is_model_available m then some (get_model_answer oracle m prompt)
    else Option.none)
  (per.map Prod.fst, per.flatMap (fun p => p.2))

/-! ### Verification layer (src/layers/verification_layer.py) -/

/-- One verification record; as with `AnswerRecord` the per-branch dicts
are flattened, with `Option.none` for absent keys.  `target_model`,
`verdict` and `error_reason` keep their parsed values verbatim. -/
structure VerificationRecord where
  verification_model : String
  target_model : PyObj
  success : Bool
  verdict : PyObj
  error_reason : PyObj
  raw_response : Option String := Option.none
  error : Option PyObj := Option.none
deriving Repr

/-- `VerificationLayer._verify_single_answer`: call the verifier, then on a
successful call parse the response.  In the fully successful branch the
record's `target_model` is `parsed_response.get('target_model',
answer['model'])` — i.e. the verifier's own output can override the
verified answer's identity.  A non-dict parse result raises and lands in
the `except` branch, as in `get_model_answer`. -/
def verification_prompt (template question : String) (answer : AnswerRecord) : String :=
  pyFormat template
    [("question", question), ("model_name", answer.model),
     ("answer", pyToStr answer.answer)]

def verify_single_answer (oracle : LLMOracle) (template question : String)
    (answer : AnswerRecord) (verification_model : String) :
    VerificationRecord × List String :=
  let prompt := verification_prompt template question answer
  let rc := call_model oracle verification_model prompt
  let response := rc.1
  if response.success = false then
    ({verification_model := verification_model, target_model := .str answer.model,
      success := false, verdict := .str "Error",
      error_reason := .str response.error,
      error := some (.str response.error)}, rc.2)
  else
    match parse_json_response response.response with
    | .obj kvs =>
      if (lookupKey kvs "error").isSome then
        ({verification_model := verification_model,
          target_model := .str answer.model, success := false,
          verdict := .str "Error",
          error_reason := objGetD kvs "raw_response" (.str ""),
          error := some ((lookupKey kvs "error").getD .null)}, rc.2)
      else
        ({verification_model := verification_model,
          target_model := objGetD kvs "target_model" (.str answer.model),
          success := true,
          verdict := objGetD kvs "verdict" (.str "Unknown"),
          error_reason := objGetD kvs "error_reason" (.str ""),
          raw_response := some response.response}, rc.2)
    | _ =>
      ({verification_model := verification_model, target_model := .str answer.model,
        success := false, verdict := .str "Error",
        error_reason := .str pyExnMsg, error := some (.str pyExnMsg)}, rc.2)

/-- The record `verify_answers` synthesizes for a failed answer: verdict
`Incorrect`, the original failure message in the reason, no provider
call. -/
def synthetic_incorrect_record (answer : AnswerRecord) (verification_model : String) :
    VerificationRecord :=
  {verification_model := verification_model,
   target_model := .str answer.model, success := true,
   verdict := .str "Incorrect",
   error_reason := .str ("作答層失敗：" ++ pyToStr (answer.error.getD .null)),
   raw_response := some ("作答失敗，無法驗證：" ++ pyToStr (answer.error.getD .null))}

/-- The body of the double loop of `VerificationLayer.verify_answers` for
one (answer, verifier) pair: skip when the short names coincide, skip when
the verifier is not configured, synthesize an `Incorrect` record without
provider traffic when the answer already failed, otherwise verify for
real.  (Failed answer records always carry the `error` key, hence the
`getD` default is never exercised.) -/
def verify_pair (oracle : LLMOracle) (template question : String)
    (answer : AnswerRecord) (verification_model : String) :
    Option VerificationRecord × List String :=
  if get_model_short_name verification_model = get_model_short_name answer.model then
    (Option.none, [])
  else if is_model_available verification_model = false then (Option.none, [])
  else if answer.success = false then
    (some (synthetic_incorrect_record answer verification_model), [])
  else
    let rc := verify_single_answer oracle template question answer verification_model
    (some rc.1, rc.2)

/-- `VerificationLayer.verify_answers`: answer-by-answer, verifier-by-
verifier, appending each produced record; the flattening reproduces the
source's single result list in its construction order. -/
def verify_answers (oracle : LLMOracle) (template question : String)
    (answers : List AnswerRecord) (verification_models : Option (List String)) :
    List VerificationRecord × List String :=
  let vms := verification_models.getD DEFAULT_VERIFICATION_MODELS
  let pairs := answers.flatMap (fun a =>
    vms.map (fun v => verify_pair oracle template question a v))
  (pairs.filterMap Prod.fst, pairs.flatMap (fun p => p.2))

/-! ### Correction layer (src/layers/correction_layer.py) -/

/-- One correction record.  Pass-through dicts carry no `success` key and
the failure dicts carry no revised/original fields, hence the `Option`s. -/
structure CorrectionRecord where
  model : String
  needs_correction : Bool
  success : Option Bool := Option.none
  original_answer : Option PyObj := Option.none
  revised_answer : Option PyObj := Option.none
  original_reasoning : Option PyObj := Option.none
  revised_reasoning : Option PyObj := Option.none
  original_error_acknowledgment : Option PyObj := Option.none
  correction_applied : Bool
  verification_error_reason : Option PyObj := Option.none
  error : Option PyObj := Option.none
  raw_response : Option PyObj := Option.none
deriving Repr

/-- `CorrectionLayer._correct_single_answer`. -/
def correction_prompt (template question : String) (original : AnswerRecord)
    (verification : VerificationRecord) : String :=
  pyFormat template
    [("question", question), ("original_reasoning", pyToStr original.reasoning),
     ("original_answer", pyToStr original.answer),
     ("verdict", pyToStr verification.verdict),
     ("error_reason", pyToStr verification.error_reason)]

def correct_single_answer (oracle : LLMOracle) (template question : String)
    (original : AnswerRecord) (verification : VerificationRecord)
    (correction_model : String) : CorrectionRecord × List String :=
  let prompt := correction_prompt template question original verification
  let rc := call_model oracle correction_model prompt
  let response := rc.1
  if response.success = false then
    ({model := original.model, needs_correction := true, success := some false,
      error := some (.str response.error), correction_applied := false}, rc.2)
  else
    match parse_json_response response.response with
    | .obj kvs =>
      if (lookupKey kvs "error").isSome then
        ({model := original.model, needs_correction := true, success := some false,
          error := some ((lookupKey kvs "error").getD .null),
          raw_response := some (objGetD kvs "raw_response" (.str "")),
          correction_applied := false}, rc.2)
      else
        ({model := original.model, needs_correction := true, success := some true,
          original_answer := some original.answer,
          revised_answer := some (objGetD kvs "revised_answer" (.str "")),
          original_reasoning := some original.reasoning,
          revised_reasoning := some (objGetD kvs "revised_reasoning" (.str "")),
          original_error_acknowledgment :=
            some (objGetD kvs "original_error_acknowledgment" (.str "")),
          correction_applied := true,
          verification_error_reason := some verification.error_reason,
          raw_response := some (.str response.response)}, rc.2)
    | _ =>
      ({model := original.model, needs_correction := true, success := some false,
        error := some (.str pyExnMsg), correction_applied := false}, rc.2)

/-- The pass-through record `correct_answers` emits when no Incorrect
verdict targets the answer: revised fields copy the originals, nothing is
applied (and the dict carries no `success` key). -/
def pass_through_record (a : AnswerRecord) : CorrectionRecord :=
  {model := a.model, needs_correction := false,
   original_answer := some a.answer, revised_answer := some a.answer,
   original_reasoning := some a.reasoning,
   revised_reasoning := some a.reasoning, correction_applied := false}

/-- The per-answer step of `CorrectionLayer.correct_answers`: failed
answers are skipped outright (`continue`); otherwise the answer's
verification records are those whose `target_model` equals the answer's
model (the source's `verification_map`, a dict grouping records by target
in input order, yields exactly this in-order sublist), and the first
`Incorrect` one — input order — triggers a correction task, else a
pass-through record. -/
def correction_item (oracle : LLMOracle) (template question : String)
    (verification_results : List VerificationRecord) (correction_model : String)
    (a : AnswerRecord) :
    Option (Sum CorrectionRecord (CorrectionRecord × List String)) :=
  if a.success = false then Option.none
  else
    let model_verifications := verification_results.filter
      (fun v => pyBeq v.target_model (.str a.model))
    let incorrect := model_verifications.filter
      (fun v => pyBeq v.verdict (.str "Incorrect"))
    match incorrect with
    | [] => some (Sum.inl (pass_through_record a))
    | v0 :: _ =>
      some (Sum.inr (correct_single_answer oracle template question a v0 correction_model))

/-- `CorrectionLayer.correct_answers`: pass-through records are appended
during the scan over the answers; correction tasks are gathered and their
records appended afterwards, so the result lists all pass-throughs (in
answer order) followed by all corrections (in answer order). -/
def correct_answers (oracle : LLMOracle) (template question : String)
    (original_answers : List AnswerRecord)
    (verification_results : List VerificationRecord)
    (correction_model : Option String) : List CorrectionRecord × List String :=
  let cm := correction_model.getD DEFAULT_CORRECTION_MODEL
  let items := original_answers.filterMap
    (correction_item oracle template question verification_results cm)
  let passes := items.filterMap (fun i =>
    match i with | Sum.inl r => some r | Sum.inr _ => Option.none)
  let tasks := items.filterMap (fun i =>
    match i with | Sum.inl _ => Option.none | Sum.inr t => some t)
  (passes ++ tasks.map Prod.fst, tasks.flatMap (fun p => p.2))

/-! ### Decision layer (src/layers/decision_layer.py) -/

/-- `DecisionLayer._calculate_answer_confidence`: 0.5 for an empty record
list, else the fraction of `Correct` verdicts.  Python's float division of
two small integer counts is modelled by exact rational division. -/
def calculate_answer_confidence (verification_results : List VerificationRecord) : ℚ :=
  if verification_results.isEmpty then 1 / 2
  else
    let correct_count :=
      (verification_results.filter (fun v => pyBeq v.verdict (.str "Correct"))).length
    let total_count := verification_results.length
    if 0 < total_count then (correct_count : ℚ) / (total_count : ℚ) else 1 / 2

/-- `verdict_counts[verdict] = verdict_counts.get(verdict, 0) + 1`: bump a
key of the (insertion-ordered) tally dict, appending a fresh entry for an
unseen key. -/
def bumpCount : List (PyObj × Nat) → PyObj → List (PyObj × Nat)
  | [], k => [(k, 1)]
  | (k', n) :: rest, k =>
      if pyBeq k' k then (k', n + 1) :: rest else (k', n) :: bumpCount rest k

/-- The tally loop of `DecisionLayer._calculate_consensus` (each record
always carries its `verdict` key, so the `.get(..., 'Unknown')` default is
the stored field). -/
def tally_verdicts (verification_results : List VerificationRecord) :
    List (PyObj × Nat) :=
  verification_results.foldl (fun acc v => bumpCount acc v.verdict) []

/-- `max(verdict_counts.values()) if verdict_counts else 0`. -/
def maxTally (counts : List (PyObj × Nat)) : Nat :=
  if counts.isEmpty then 0 else (counts.map Prod.snd).foldl Nat.max 0

/-- The consensus dict; the empty-input branch of the source carries no
`verdict_distribution` key, hence the `Option`. -/
structure ConsensusResult where
  consensus_rate : ℚ
  agreement_level : String
  verdict_distribution : Option (List (PyObj × Nat)) := Option.none
deriving Repr

/-- `DecisionLayer._calculate_consensus`.  The float thresholds 0.8 and
0.6 are modelled by the exact rationals 4/5 and 3/5. -/
def calculate_consensus (verification_results : List VerificationRecord) :
    ConsensusResult :=
  if verification_results.isEmpty then
    {consensus_rate := 0, agreement_level := "No Data"}
  else
    let verdict_counts := tally_verdicts verification_results
    let total := verification_results.length
    let max_agreement := maxTally verdict_counts
    let rate : ℚ := (max_agreement : ℚ) / (total : ℚ)
    let level :=
      if rate ≥ 4 / 5 then "High Consensus"
      else if rate ≥ 3 / 5 then "Moderate Consensus"
      else "Low Consensus"
    {consensus_rate := rate, agreement_level := level,
     verdict_distribution := some verdict_counts}

/-- The final decision dict (all branches flattened). -/
structure DecisionResult where
  success : Bool
  decision_model : String
  final_answer : Option PyObj := Option.none
  reasoning : Option PyObj := Option.none
  evidence_analysis : Option PyObj := Option.none
  answer_confidence : Option ℚ := Option.none
  verification_consensus : Option ConsensusResult := Option.none
  raw_response : Option PyObj := Option.none
  error : Option PyObj := Option.none
deriving Repr

/-- `DecisionLayer._prepare_decision_context`: the four placeholder values
for the decision prompt template. -/
def prepare_decision_context (question : String)
    (original_answers : List AnswerRecord)
    (verification_results : List VerificationRecord)
    (correction_results : List CorrectionRecord) : List (String × String) :=
  let original_summary := original_answers.flatMap (fun a =>
    if a.success then ["模型: " ++ a.model, "答案: " ++ pyToStr a.answer, "---"]
    else [])
  let verification_summary := verification_results.flatMap (fun v =>
    if v.success then
      ["驗證模型: " ++ v.verification_model, "目標: " ++ pyToStr v.target_model,
       "結果: " ++ pyToStr v.verdict] ++
      (if pyTruthy v.error_reason then ["說明: " ++ pyToStr v.error_reason] else []) ++
      ["---"]
    else [])
  let correction_summary := correction_results.flatMap (fun c =>
    if c.needs_correction then
      ["模型: " ++ c.model] ++
      (if c.success.getD false then
        ["原答案: " ++ pyToStr (c.original_answer.getD .null),
         "修正答案: " ++ pyToStr (c.revised_answer.getD .null)]
       else ["訂正失敗"]) ++
      ["---"]
    else ["模型: " ++ c.model ++ " - 無需訂正", "---"])
  [("question", question),
   ("original_answers",
    if original_summary.isEmpty then "無可用答案"
    else String.intercalate "\n" original_summary),
   ("verification_results",
    if verification_summary.isEmpty then "無驗證結果"
    else String.intercalate "\n" verification_summary),
   ("correction_results",
    if correction_summary.isEmpty then "無訂正結果"
    else String.intercalate "\n" correction_summary)]

/-- `DecisionLayer.make_final_decision`.  The two numeric metrics are
computed locally from `verification_results`, independently of whatever
the decision model returned. -/
def make_final_decision (oracle : LLMOracle) (template question : String)
    (original_answers : List AnswerRecord)
    (verification_results : List VerificationRecord)
    (correction_results : List CorrectionRecord)
    (decision_model : Option String) : DecisionResult × List String :=
  let dm := decision_model.getD DEFAULT_DECISION_MODEL
  let ctx := prepare_decision_context question original_answers
    verification_results correction_results
  let prompt := pyFormat template ctx
  let rc := call_model oracle dm prompt
  let response := rc.1
  if response.success = false then
    ({success := false, decision_model := dm,
      error := some (.str response.error)}, rc.2)
  else
    match parse_json_response response.response with
    | .obj kvs =>
      if (lookupKey kvs "error").isSome then
        ({success := false, decision_model := dm,
          error := some ((lookupKey kvs "error").getD .null),
          raw_response := some (objGetD kvs "raw_response" (.str ""))}, rc.2)
      else
        ({success := true, decision_model := dm,
          final_answer := some (objGetD kvs "final_answer" (.str "")),
          reasoning := some (objGetD kvs "reasoning" (.str "")),
          evidence_analysis := some (objGetD kvs "evidence_analysis" (.str "")),
          answer_confidence := some (calculate_answer_confidence verification_results),
          verification_consensus := some (calculate_consensus verification_results),
          raw_response := some (.str response.response)}, rc.2)
    | _ =>
      ({success := false, decision_model := dm,
        error := some (.str pyExnMsg)}, rc.2)

/-! ### Summaries (verification/correction layer helpers and
`SystemCoordinator._generate_summary`) -/

/-- `VerificationLayer.get_verification_summary` result. -/
structure VerificationSummary where
  total_verifications : Nat
  correct_count : Nat
  incorrect_count : Nat
  error_count : Nat
  accuracy_rate : ℚ
deriving Repr

def get_verification_summary (results : List VerificationRecord) :
    VerificationSummary :=
  let total := results.length
  let correct := (results.filter (fun r => pyBeq r.verdict (.str "Correct"))).length
  let incorrect := (results.filter (fun r => pyBeq r.verdict (.str "Incorrect"))).length
  let errors := (results.filter (fun r => r.success = false)).length
  {total_verifications := total, correct_count := correct,
   incorrect_count := incorrect, error_count := errors,
   accuracy_rate := if 0 < total then (correct : ℚ) / (total : ℚ) else 0}

/-- `CorrectionLayer.get_correction_summary` result. -/
structure CorrectionSummary where
  total_answers : Nat
  needed_correction : Nat
  successful_corrections : Nat
  correction_success_rate : ℚ
  overall_success_rate : ℚ
deriving Repr

def get_correction_summary (results : List CorrectionRecord) :
    CorrectionSummary :=
  let total := results.length
  let needed := (results.filter (fun r => r.needs_correction)).length
  let successful := (results.filter (fun r => r.correction_applied)).length
  {total_answers := total, needed_correction := needed,
   successful_corrections := successful,
   correction_success_rate :=
     if 0 < needed then (successful : ℚ) / (needed : ℚ) else 1,
   overall_success_rate :=
     if 0 < total then ((total : ℚ) - (needed : ℚ) + (successful : ℚ)) / (total : ℚ)
     else 0}

/-- The decision part of `SystemCoordinator._generate_summary`. -/
structure DecisionSummary where
  success : Bool
  final_answer : PyObj
  confidence : ℚ
deriving Repr

/-- `SystemCoordinator._generate_summary` result. -/
structure RunSummary where
  answering_success_rate : ℚ
  verification_summary : VerificationSummary
  correction_summary : CorrectionSummary
  decision_summary : DecisionSummary
  overall_success : Bool
deriving Repr

def generate_summary (answering : List AnswerRecord)
    (verification : List VerificationRecord)
    (correction : List CorrectionRecord) (decision : DecisionResult) :
    RunSummary :=
  let successful := (answering.filter (fun a => a.success)).length
  let total := answering.length
  {answering_success_rate :=
     if 0 < total then (successful : ℚ) / (total : ℚ) else 0,
   verification_summary := get_verification_summary verification,
   correction_summary := get_correction_summary correction,
   decision_summary :=
     {success := decision.success,
      final_answer := (decision.final_answer).getD (.str "N/A"),
      confidence := (decision.answer_confidence).getD 0},
   overall_success := decision.success}

/-! ### The two orchestrators -/

/-- The Prompt Template Store: one template string per stage, loaded at
startup from files outside the core (missing files are a fatal startup
error in every layer constructor). -/
structure Templates where
  answering : String
  verification : String
  correction : String
  decision : String

/-- The aggregate `SystemCoordinator.process_question` builds (timing,
timestamp and the configuration echo are not modelled — no claim touches
them). -/
structure CoordinatorResult where
  question : String
  answering : List AnswerRecord
  verification : List VerificationRecord
  correction : List CorrectionRecord
  decision : DecisionResult
  summary : RunSummary
deriving Repr

/-- `SystemCoordinator.process_question` (src/system_coordinator.py
32-148): all four stages run unconditionally, in order, each fed the full
output of the previous ones; there is no check on the number of
successful answers and no short-circuit. -/
def coordinator_process_question (oracle : LLMOracle) (templates : Templates)
    (question : String) (answering_models verification_models : Option (List String))
    (correction_model decision_model : Option String) :
    CoordinatorResult × List String :=
  let ar := answering_process_question oracle templates.answering question answering_models
  let vr := verify_answers oracle templates.verification question ar.1 verification_models
  let cr := correct_answers oracle templates.correction question ar.1 vr.1 correction_model
  let dr := make_final_decision oracle templates.decision question ar.1 vr.1 cr.1 decision_model
  ({question := question, answering := ar.1, verification := vr.1,
    correction := cr.1, decision := dr.1,
    summary := generate_summary ar.1 vr.1 cr.1 dr.1},
   ar.2 ++ vr.2 ++ cr.2 ++ dr.2)

/-- The `results` dict of `LLMLogicSystem.process_question`. -/
structure SystemRunResults where
  question : String
  answering_results : List AnswerRecord
  verification_results : List VerificationRecord
  correction_results : List CorrectionRecord
  final_decision : Option DecisionResult
  success : Bool
  error : Option String := Option.none
deriving Repr

/-- `LLMLogicSystem.process_question` (src/llm_logic_system.py 36-136).
When no answer succeeded the method returns the initialized results with
`success = False` before stages 2-4 run.  Otherwise stages 2-4 run on the
*successful* answers only.  Note the success path afterwards prints
`final_decision['confidence_level']`, a key `make_final_decision` never
produces; the `KeyError` is caught by the outer `except`, which stores the
error and leaves `results['success']` at `False`. -/
def llm_system_process_question (oracle : LLMOracle) (templates : Templates)
    (question : String) (answering_models verification_models : Option (List String))
    (correction_model decision_model : Option String) :
    SystemRunResults × List String :=
  let ar := answering_process_question oracle templates.answering question answering_models
  let successful := ar.1.filter (fun r => r.success)
  if successful.isEmpty then
    ({question := question, answering_results := ar.1,
      verification_results := [], correction_results := [],
      final_decision := Option.none, success := false}, ar.2)
  else
    let vr := verify_answers oracle templates.verification question successful verification_models
    let cr := correct_answers oracle templates.correction question successful vr.1 correction_model
    let dr := make_final_decision oracle templates.decision question successful vr.1 cr.1 decision_model
    if dr.1.success then
      ({question := question, answering_results := ar.1,
        verification_results := vr.1, correction_results := cr.1,
        final_decision := some dr.1, success := false,
        error := some "confidence_level"},
       ar.2 ++ vr.2 ++ cr.2 ++ dr.2)
    else
      ({question := question, answering_results := ar.1,
        verification_results := vr.1, correction_results := cr.1,
        final_decision := some dr.1, success := false},
       ar.2 ++ vr.2 ++ cr.2 ++ dr.2)

/-! ## Helper lemmas -/

theorem foldl_max_init_le (l : List Nat) : ∀ a : Nat, a ≤ l.foldl Nat.max a := by
  induction l with
  | nil => intro a; simp
  | cons x xs ih =>
      intro a
      simpa using le_trans (Nat.le_max_left a x) (ih (Nat.max a x))

theorem mem_le_foldl_max (l : List Nat) :
    ∀ a x : Nat, x ∈ l → x ≤ l.foldl Nat.max a := by
  induction l with
  | nil => intro a x hx; cases hx
  | cons y ys ih =>
      intro a x hx
      rcases List.mem_cons.mp hx with h | h
      · subst h
        exact le_trans (Nat.le_max_right a x) (foldl_max_init_le ys (Nat.max a x))
      · exact ih (Nat.max a y) x h

theorem foldl_max_mem_or_init (l : List Nat) :
    ∀ a : Nat, l.foldl Nat.max a = a ∨ l.foldl Nat.max a ∈ l := by
  induction l with
  | nil => intro a; left; rfl
  | cons x xs ih =>
      intro a
      rcases ih (Nat.max a x) with h | h
      · rcases Nat.le_total a x with hax | hxa
        · right
          simp only [List.foldl_cons, h]
          have hx : Nat.max a x = x := Nat.max_eq_right hax
          rw [hx]
          exact List.mem_cons_self _ _
        · left
          simp only [List.foldl_cons, h]
          exact Nat.max_eq_left hxa
      · right
        simp only [List.foldl_cons]
        exact List.mem_cons_of_mem _ h

/-- A simple successful verification record with the given verdict, used
as concrete input by several witnesses. -/
def vrecSample (verdict : String) : VerificationRecord :=
  {verification_model := "groq/llama-3-70b-8192",
   target_model := .str "groq/llama-3.3-70b", success := true,
   verdict := .str verdict, error_reason := .str ""}

/-! ## C4 — answer confidence -/

/-- C4: the decision stage's answer confidence equals
(#records with verdict Correct) / (#records) when at least one
verification record exists, equals exactly 1/2 when the record list is
empty, and always lies in [0, 1]. -/
theorem c4_answer_confidence (vs : List VerificationRecord) :
    (vs = [] → calculate_answer_confidence vs = 1 / 2) ∧
    (vs ≠ [] → calculate_answer_confidence vs =
      ((vs.filter (fun v => pyBeq v.verdict (.str "Correct"))).length : ℚ) /
        (vs.length : ℚ)) ∧
    0 ≤ calculate_answer_confidence vs ∧ calculate_answer_confidence vs ≤ 1 := by
  rcases eq_or_ne vs [] with h | h
  · subst h
    refine ⟨fun _ => rfl, fun hne => absurd rfl hne, ?_, ?_⟩ <;> norm_num [calculate_answer_confidence]
  · have hlen : 0 < vs.length := List.length_pos.mpr h
    have hlenQ : (0 : ℚ) < (vs.length : ℚ) := by exact_mod_cast hlen
    have hformula : calculate_answer_confidence vs =
        ((vs.filter (fun v => pyBeq v.verdict (.str "Correct"))).length : ℚ) /
          (vs.length : ℚ) := by
      simp [calculate_answer_confidence, List.isEmpty_iff, h, hlen]
    refine ⟨fun h' => absurd h' h, fun _ => hformula, ?_, ?_⟩
    · rw [hformula]
      positivity
    · rw [hformula]
      rw [div_le_one hlenQ]
      exact_mod_cast List.length_filter_le _ vs

/-! ## C5 — consensus -/

theorem bumpCount_ne_nil (acc : List (PyObj × Nat)) (k : PyObj) :
    bumpCount acc k ≠ [] := by
  cases acc with
  | nil => simp [bumpCount]
  | cons p rest =>
      rcases p with ⟨k', n⟩
      by_cases h : pyBeq k' k <;> simp [bumpCount, h]

theorem tally_verdicts_ne_nil (vs : List VerificationRecord) (h : vs ≠ []) :
    tally_verdicts vs ≠ [] := by
  cases vs with
  | nil => exact absurd rfl h
  | cons v rest =>
      have haux : ∀ (l : List VerificationRecord) (acc : List (PyObj × Nat)),
          acc ≠ [] → l.foldl (fun acc v => bumpCount acc v.verdict) acc ≠ [] := by
        intro l
        induction l with
        | nil => intro acc hacc; simpa using hacc
        | cons x xs ih =>
            intro acc hacc
            rw [List.foldl_cons]
            exact ih _ (bumpCount_ne_nil _ _)
      show (v :: rest).foldl (fun acc v => bumpCount acc v.verdict) [] ≠ []
      rw [List.foldl_cons]
      exact haux rest _ (bumpCount_ne_nil [] v.verdict)

theorem maxTally_spec (counts : List (PyObj × Nat)) (h : counts ≠ []) :
    (∀ p ∈ counts, p.2 ≤ maxTally counts) ∧
    ∃ p ∈ counts, maxTally counts = p.2 := by
  have hB : counts.isEmpty = false := by simp [List.isEmpty_iff, h]
  have hmax : maxTally counts = (counts.map Prod.snd).foldl Nat.max 0 := by
    simp [maxTally, hB]
  constructor
  · intro p hp
    rw [hmax]
    exact mem_le_foldl_max _ 0 p.2 (List.mem_map_of_mem Prod.snd hp)
  · rcases foldl_max_mem_or_init (counts.map Prod.snd) 0 with h0 | hmem
    · rcases counts with _ | ⟨q, rest⟩
      · exact absurd rfl h
      · refine ⟨q, List.mem_cons_self _ _, ?_⟩
        have hle : q.2 ≤ maxTally (q :: rest) := by
          rw [hmax]
          exact mem_le_foldl_max _ 0 q.2
            (List.mem_map_of_mem Prod.snd (List.mem_cons_self _ _))
        rw [hmax] at hle ⊢
        omega
    · rcases List.mem_map.mp hmem with ⟨p, hp, hsnd⟩
      exact ⟨p, hp, by rw [hmax, hsnd]⟩

/-- C5: consensus is computed by tallying verdicts; the rate is the
maximum tally over the total count (0 and "No Data" on empty input), and
the agreement level is High exactly from rate 4/5 (inclusive), Moderate
exactly on [3/5, 4/5), Low exactly below 3/5. -/
theorem c5_consensus (vs : List VerificationRecord) :
    (vs = [] → (calculate_consensus vs).consensus_rate = 0 ∧
               (calculate_consensus vs).agreement_level = "No Data") ∧
    (vs ≠ [] →
      (calculate_consensus vs).consensus_rate =
        (maxTally (tally_verdicts vs) : ℚ) / (vs.length : ℚ) ∧
      (∀ p ∈ tally_verdicts vs,
        (p.2 : ℚ) / (vs.length : ℚ) ≤ (calculate_consensus vs).consensus_rate) ∧
      (∃ p ∈ tally_verdicts vs,
        (calculate_consensus vs).consensus_rate = (p.2 : ℚ) / (vs.length : ℚ)) ∧
      ((calculate_consensus vs).agreement_level = "High Consensus" ↔
        4 / 5 ≤ (calculate_consensus vs).consensus_rate) ∧
      ((calculate_consensus vs).agreement_level = "Moderate Consensus" ↔
        3 / 5 ≤ (calculate_consensus vs).consensus_rate ∧
          (calculate_consensus vs).consensus_rate < 4 / 5) ∧
      ((calculate_consensus vs).agreement_level = "Low Consensus" ↔
        (calculate_consensus vs).consensus_rate < 3 / 5)) := by
  constructor
  · rintro rfl
    exact ⟨rfl, rfl⟩
  · intro h
    have hB : vs.isEmpty = false := by simp [List.isEmpty_iff, h]
    have hlen : 0 < vs.length := List.length_pos.mpr h
    have hlenQ : (0 : ℚ) < (vs.length : ℚ) := by exact_mod_cast hlen
    have hcc : calculate_consensus vs =
        {consensus_rate := (maxTally (tally_verdicts vs) : ℚ) / (vs.length : ℚ),
         agreement_level :=
           if (maxTally (tally_verdicts vs) : ℚ) / (vs.length : ℚ) ≥ 4 / 5 then
             "High Consensus"
           else if (maxTally (tally_verdicts vs) : ℚ) / (vs.length : ℚ) ≥ 3 / 5 then
             "Moderate Consensus"
           else "Low Consensus",
         verdict_distribution := some (tally_verdicts vs)} := by
      simp [calculate_consensus, hB]
    have hrate : (calculate_consensus vs).consensus_rate =
        (maxTally (tally_verdicts vs) : ℚ) / (vs.length : ℚ) := by rw [hcc]
    have hlevel : (calculate_consensus vs).agreement_level =
        (if (maxTally (tally_verdicts vs) : ℚ) / (vs.length : ℚ) ≥ 4 / 5 then
           "High Consensus"
         else if (maxTally (tally_verdicts vs) : ℚ) / (vs.length : ℚ) ≥ 3 / 5 then
           "Moderate Consensus"
         else "Low Consensus") := by rw [hcc]
    have hspec := maxTally_spec (tally_verdicts vs) (tally_verdicts_ne_nil vs h)
    have hHM : ("Moderate Consensus" : String) ≠ "High Consensus" := by decide
    have hHL : ("Low Consensus" : String) ≠ "High Consensus" := by decide
    have hML : ("Low Consensus" : String) ≠ "Moderate Consensus" := by decide
    have hMH : ("High Consensus" : String) ≠ "Moderate Consensus" := by decide
    have hLH : ("High Consensus" : String) ≠ "Low Consensus" := by decide
    have hLM : ("Moderate Consensus" : String) ≠ "Low Consensus" := by decide
    refine ⟨hrate, ?_, ?_, ?_, ?_, ?_⟩
    · intro p hp
      rw [hrate]
      exact div_le_div_of_nonneg_right (by exact_mod_cast hspec.1 p hp)
        (le_of_lt hlenQ) |>.trans_eq rfl
    · rcases hspec.2 with ⟨p, hp, hpm⟩
      exact ⟨p, hp, by rw [hrate, hpm]⟩
    · rw [hlevel, hrate]
      split_ifs with h1 h2
      · exact iff_of_true rfl h1
      · exact iff_of_false hHM h1
      · exact iff_of_false hHL h1
    · rw [hlevel, hrate]
      split_ifs with h1 h2
      · exact iff_of_false hMH (fun hc => (not_lt.mpr h1) hc.2)
      · exact iff_of_true rfl ⟨h2, not_le.mp h1⟩
      · exact iff_of_false hML (fun hc => h2 hc.1)
    · rw [hlevel, hrate]
      split_ifs with h1 h2
      · exact iff_of_false hLH (not_lt.mpr (le_trans (by norm_num) h1))
      · exact iff_of_false hLM (not_lt.mpr h2)
      · exact iff_of_true rfl (not_le.mp h2)

/-- C4 witness: the theorem applied at the empty list and at a concrete
two-record list (one Correct, one Incorrect verdict). -/
theorem c4_answer_confidence_witness :
    calculate_answer_confidence [] = 1 / 2 ∧
    calculate_answer_confidence [vrecSample "Correct", vrecSample "Incorrect"] = 1 / 2 := by
  constructor
  · exact (c4_answer_confidence []).1 rfl
  · have h := ((c4_answer_confidence
      [vrecSample "Correct", vrecSample "Incorrect"]).2).1 (List.cons_ne_nil _ _)
    have hf : (List.filter (fun v => pyBeq v.verdict (PyObj.str "Correct"))
        [vrecSample "Correct", vrecSample "Incorrect"]).length = 1 := rfl
    rw [h, hf]
    norm_num

/-- C5 witness: the theorem applied at the empty list, and at a concrete
five-record list with four matching verdicts, showing the 4/5 boundary is
inclusive. -/
theorem c5_consensus_witness :
    (calculate_consensus []).agreement_level = "No Data" ∧
    (calculate_consensus [vrecSample "Correct", vrecSample "Correct",
        vrecSample "Correct", vrecSample "Correct",
        vrecSample "Incorrect"]).agreement_level = "High Consensus" := by
  constructor
  · exact ((c5_consensus []).1 rfl).2
  · have hiff := ((c5_consensus [vrecSample "Correct", vrecSample "Correct",
        vrecSample "Correct", vrecSample "Correct",
        vrecSample "Incorrect"]).2 (List.cons_ne_nil _ _)).2.2.2.1
    rw [hiff]
    have hr := ((c5_consensus [vrecSample "Correct", vrecSample "Correct",
        vrecSample "Correct", vrecSample "Correct",
        vrecSample "Incorrect"]).2 (List.cons_ne_nil _ _)).1
    rw [hr]
    have hm : maxTally (tally_verdicts [vrecSample "Correct", vrecSample "Correct",
        vrecSample "Correct", vrecSample "Correct",
        vrecSample "Incorrect"]) = 4 := rfl
    rw [hm]
    norm_num

/-! ## Shared concrete inputs for witnesses and counterexamples -/

/-- An oracle whose provider is down: every invocation fails. -/
def oracleDown : LLMOracle := fun _ _ =>
  {success := false, response := "", error := "provider down"}

/-- A successful answer record from the `groq/llama-3.3-70b` model. -/
def ansSample : AnswerRecord :=
  {model := "groq/llama-3.3-70b", success := true, answer := .str "No",
   reasoning := .str "because", raw_response := some (.str "raw")}

/-- A failed answer record. -/
def failedAnswerSample : AnswerRecord :=
  {model := "groq/llama-3.3-70b", success := false,
   error := some (.str "boom")}

/-- A concrete template store. -/
def templatesSample : Templates :=
  {answering := "ta", verification := "tv", correction := "tc", decision := "td"}

/-! ## C7 — pass-through idempotence of the correction stage -/

/-- C7: a successful answer none of whose targeting verification records
carries verdict Incorrect yields the pass-through record — needs no
correction, revised fields equal the originals, nothing applied — and its
per-answer step creates no correction task, hence no correction-model
invocation for it. -/
theorem c7_pass_through (oracle : LLMOracle) (template question : String)
    (answers : List AnswerRecord) (verifs : List VerificationRecord)
    (cm : String) (a : AnswerRecord)
    (ha : a ∈ answers) (hs : a.success = true)
    (hni : ∀ v ∈ verifs, pyBeq v.target_model (.str a.model) = true →
      pyBeq v.verdict (.str "Incorrect") = false) :
    correction_item oracle template question verifs cm a
      = some (Sum.inl (pass_through_record a)) ∧
    pass_through_record a ∈
      (correct_answers oracle template question answers verifs (some cm)).1 := by
  have hitem : correction_item oracle template question verifs cm a
      = some (Sum.inl (pass_through_record a)) := by
    have hincorrect : (verifs.filter
        (fun v => pyBeq v.target_model (.str a.model))).filter
        (fun v => pyBeq v.verdict (.str "Incorrect")) = [] := by
      rw [List.filter_eq_nil_iff]
      intro v hv
      rcases List.mem_filter.mp hv with ⟨hv1, hv2⟩
      simp [hni v hv1 hv2]
    simp only [correction_item, hs]
    simp [hincorrect]
  refine ⟨hitem, ?_⟩
  have hmem : Sum.inl (pass_through_record a) ∈ (answers.filterMap
      (correction_item oracle template question verifs cm) :
        List (Sum CorrectionRecord (CorrectionRecord × List String))) :=
    List.mem_filterMap.mpr ⟨a, ha, hitem⟩
  have hpasses : pass_through_record a ∈ (answers.filterMap
      (correction_item oracle template question verifs cm)).filterMap
      (fun i => match i with
        | Sum.inl r => some r
        | Sum.inr _ => Option.none) :=
    List.mem_filterMap.mpr ⟨Sum.inl (pass_through_record a), hmem, rfl⟩
  simp only [correct_answers, Option.getD_some]
  exact List.mem_append_left _ hpasses

/-- C7 witness: the theorem applied to a concrete successful answer with a
single targeting record whose verdict is Correct. -/
theorem c7_pass_through_witness :
    correction_item oracleDown "tc" "q"
        [{verification_model := "groq/llama-3-70b-8192",
          target_model := .str "groq/llama-3.3-70b", success := true,
          verdict := .str "Correct", error_reason := .str ""}]
        "groq/llama-3-70b-8192" ansSample
      = some (Sum.inl (pass_through_record ansSample)) ∧
    pass_through_record ansSample ∈
      (correct_answers oracleDown "tc" "q" [ansSample]
        [{verification_model := "groq/llama-3-70b-8192",
          target_model := .str "groq/llama-3.3-70b", success := true,
          verdict := .str "Correct", error_reason := .str ""}]
        (some "groq/llama-3-70b-8192")).1 := by
  exact c7_pass_through oracleDown "tc" "q" [ansSample] _ _ ansSample
    (List.mem_singleton_self _) rfl
    (by
      intro v hv ht
      rcases List.mem_singleton.mp hv with rfl
      rfl)

/-! ## C8 — correction-stage error handling -/

/-- C8 (amended): an answering record whose success flag is false is
skipped by the correction stage — its per-answer step yields nothing, so
no CorrectionRecord for it exists; and for a successful answer whose
correction invocation fails, the emitted record has needs_correction
true, success false and applied false, carrying the invocation error. -/
theorem c8_correction_failures (oracle : LLMOracle) (template question : String)
    (verifs : List VerificationRecord) (cm : String) (a : AnswerRecord)
    (v0 : VerificationRecord) :
    (a.success = false → correction_item oracle template question verifs cm a
      = Option.none) ∧
    ((call_model oracle cm (correction_prompt template question a v0)).1.success = false →
      (correct_single_answer oracle template question a v0 cm).1 =
        {model := a.model, needs_correction := true, success := some false,
         error :=
           some (.str (call_model oracle cm (correction_prompt template question a v0)).1.error),
         correction_applied := false}) := by
  constructor
  · intro h
    simp [correction_item, h]
  · intro h
    simp only [correct_single_answer]
    rw [if_pos h]

/-- C8 counterexample for the claim as stated: a failed answering model
yields *no* correction record at all (the claim asserts a record with
needs_correction = true still exists for it). -/
theorem c8_counterexample :
    failedAnswerSample.success = false ∧
    (correct_answers oracleDown "tc" "q" [failedAnswerSample] []
      (some "groq/llama-3-70b-8192")).1 = [] := ⟨rfl, rfl⟩

/-- C8 witness: the amended theorem applied at a concrete failed answer
and at a concrete failing correction invocation. -/
theorem c8_correction_failures_witness :
    correction_item oracleDown "tc" "q" [] "groq/llama-3-70b-8192" failedAnswerSample
      = Option.none ∧
    (correct_single_answer oracleDown "tc" "q" ansSample (vrecSample "Incorrect")
        "groq/llama-3-70b-8192").1 =
      {model := "groq/llama-3.3-70b", needs_correction := true, success := some false,
       error := some (.str "provider down"), correction_applied := false} := by
  constructor
  · exact (c8_correction_failures oracleDown "tc" "q" [] "groq/llama-3-70b-8192"
      failedAnswerSample (vrecSample "Incorrect")).1 rfl
  · have h := (c8_correction_failures oracleDown "tc" "q" [] "groq/llama-3-70b-8192"
      ansSample (vrecSample "Incorrect")).2 rfl
    rw [h]
    rfl

/-! ## C6 — failed answers are verified synthetically -/

/-- C6 (amended): for every failed AnswerRecord and every *configured*
verifier whose short name differs from the answer's, `verify_answers`
synthesizes the Incorrect record carrying the original failure message in
its reason, and that pair contributes no provider invocation. -/
theorem c6_failed_answer_synthesis (oracle : LLMOracle) (template question : String)
    (answers : List AnswerRecord) (vmodels : List String)
    (a : AnswerRecord) (v : String)
    (ha : a ∈ answers) (hfail : a.success = false) (hv : v ∈ vmodels)
    (hshort : get_model_short_name v ≠ get_model_short_name a.model)
    (havail : is_model_available v = true) :
    verify_pair oracle template question a v
      = (some (synthetic_incorrect_record a v), []) ∧
    (synthetic_incorrect_record a v).verdict = .str "Incorrect" ∧
    (synthetic_incorrect_record a v).error_reason
      = .str ("作答層失敗：" ++ pyToStr (a.error.getD .null)) ∧
    synthetic_incorrect_record a v ∈
      (verify_answers oracle template question answers (some vmodels)).1 := by
  have hpair : verify_pair oracle template question a v
      = (some (synthetic_incorrect_record a v), []) := by
    simp [verify_pair, hshort, havail, hfail]
  refine ⟨hpair, rfl, rfl, ?_⟩
  have hmem : (some (synthetic_incorrect_record a v), ([] : List String)) ∈
      answers.flatMap (fun a =>
        vmodels.map (fun v => verify_pair oracle template question a v)) := by
    refine List.mem_flatMap.mpr ⟨a, ha, ?_⟩
    refine List.mem_map.mpr ⟨v, hv, ?_⟩
    rw [hpair]
  simp only [verify_answers, Option.getD_some]
  exact List.mem_filterMap.mpr ⟨_, hmem, rfl⟩

/-- C6 counterexample for the claim as stated: a non-self verifier that is
not configured produces no record at all for the failed answer (the claim
asserts one is synthesized for each non-self verifier). -/
theorem c6_counterexample :
    get_model_short_name "zzz/unknown-model"
      ≠ get_model_short_name failedAnswerSample.model ∧
    failedAnswerSample.success = false ∧
    (verify_answers oracleDown "tv" "q" [failedAnswerSample]
      (some ["zzz/unknown-model"])).1 = [] := by
  refine ⟨by decide, rfl, rfl⟩

/-- C6 witness: the amended theorem applied at a concrete failed answer
and a concrete configured non-self verifier. -/
theorem c6_failed_answer_synthesis_witness :
    synthetic_incorrect_record failedAnswerSample "groq/llama-3-70b-8192" ∈
      (verify_answers oracleDown "tv" "q" [failedAnswerSample]
        (some ["groq/llama-3-70b-8192"])).1 :=
  (c6_failed_answer_synthesis oracleDown "tv" "q" [failedAnswerSample]
    ["groq/llama-3-70b-8192"] failedAnswerSample "groq/llama-3-70b-8192"
    (List.mem_singleton_self _) rfl (List.mem_singleton_self _)
    (by decide) rfl).2.2.2

/-! ## C3 — the answering stage's per-model contract -/

theorem call_model_available (oracle : LLMOracle) (m p : String)
    (h : is_model_available m = true) :
    call_model oracle m p = (oracle m p, [m]) := by
  simp [call_model, h]

theorem call_model_unavailable (oracle : LLMOracle) (m p : String)
    (h : is_model_available m = false) :
    call_model oracle m p =
      ({success := false, response := "",
        error := "Model " ++ m ++ " is not available"}, []) := by
  simp [call_model, h]

/-- Every branch of `get_model_answer` stamps the requested model on the
record and threads exactly the calls of its one `call_model`. -/
theorem get_model_answer_fields (oracle : LLMOracle) (m p : String) :
    (get_model_answer oracle m p).1.model = m ∧
    (get_model_answer oracle m p).2 = (call_model oracle m p).2 := by
  unfold get_model_answer
  constructor <;>
    (dsimp only
     split
     · rfl
     · split <;> (try split) <;> rfl)

/-- C3 (amended): the answering stage emits exactly one record per
*configured* requested model, in input order, regardless of individual
failures; requested models that do not resolve to a configured
provider/model pair are skipped — no record and no Model Invocation
Service call — and the invoked models are exactly the configured ones in
order. -/
theorem c3_one_record_per_configured_model (oracle : LLMOracle)
    (template question : String) (models : List String) :
    ((answering_process_question oracle template question (some models)).1.map
        (fun r => r.model) = models.filter (fun m => is_model_available m)) ∧
    ((answering_process_question oracle template question (some models)).2
        = models.filter (fun m => is_model_available m)) := by
  simp only [answering_process_question, Option.getD_some]
  generalize pyFormat template [("question", question)] = prompt
  induction models with
  | nil => exact ⟨rfl, rfl⟩
  | cons m rest ih =>
      by_cases h : is_model_available m
      · constructor
        · simp only [List.filterMap_cons, h, if_true, List.filter_cons,
            List.map_cons]
          rw [ih.1]
          simp [(get_model_answer_fields oracle m prompt).1, h]
        · simp only [List.filterMap_cons, h, if_true, List.filter_cons,
            List.flatMap_cons]
          rw [(get_model_answer_fields oracle m prompt).2,
            call_model_available oracle m prompt h, ih.2]
          simp [h]
      · have h' : is_model_available m = false := by
          simpa using h
        constructor
        · simp [List.filterMap_cons, List.filter_cons, h', ih.1]
        · simp [List.filterMap_cons, List.filter_cons, h', ih.2]

/-- C3 counterexample for the claim as stated: a single requested but
unconfigured model yields an empty record list (not one failure record
per requested model). -/
theorem c3_counterexample :
    is_model_available "zzz/unknown-model" = false ∧
    (answering_process_question oracleDown "ta" "q"
      (some ["zzz/unknown-model"])).1 = [] ∧
    (answering_process_question oracleDown "ta" "q"
      (some ["zzz/unknown-model"])).2 = [] := ⟨rfl, rfl, rfl⟩

/-! ## C1 — cross-validation invariant -/

/-- The claimed invariant on one record: the verifier's short identity
differs from the short identity of the recorded target model. -/
def vrecCrossOk (r : VerificationRecord) : Bool :=
  match r.target_model with
  | .str t => get_model_short_name r.verification_model ≠ get_model_short_name t
  | _ => true

/-- Branch bookkeeping for `verify_single_answer`: every branch stamps the
verifier on the record, and — provided the parsed verifier response does
not carry a `target_model` key — every branch records the verified
answer's own model as target. -/
theorem verify_single_answer_fields (oracle : LLMOracle) (template question : String)
    (a : AnswerRecord) (v : String) :
    (verify_single_answer oracle template question a v).1.verification_model = v ∧
    ((parse_json_response
        (oracle v (verification_prompt template question a)).response).hasKey
          "target_model" = false →
      (verify_single_answer oracle template question a v).1.target_model
        = .str a.model) := by
  by_cases hav : is_model_available v
  · constructor
    · simp only [verify_single_answer, call_model_available oracle v _ hav]
      split
      · rfl
      · split <;> (try split) <;> rfl
    · intro h
      simp only [verify_single_answer, call_model_available oracle v _ hav]
      split
      · rfl
      · split
        · rename_i kvs heq
          split
          · rfl
          · rw [heq] at h
            cases hl : lookupKey kvs "target_model" with
            | none => simp [objGetD, hl]
            | some w => simp [PyObj.hasKey, hl] at h
        · rfl
  · have hav' : is_model_available v = false := by simpa using hav
    constructor <;>
      (try intro h) <;>
      simp [verify_single_answer, call_model_unavailable oracle v _ hav']

/-- C1 (amended): `verify_answers` skips every (verifier, answer) pair
whose short identities coincide, so whenever the verifier responses do not
themselves supply a `target_model` field — in particular in the failure,
synthetic and error branches, which always record the answer's own model —
every produced record has verifier short identity ≠ target short
identity.  (A parsed verifier response carrying its own `target_model`
value can break the recorded-field invariant; see the counterexample.) -/
theorem c1_cross_validation (oracle : LLMOracle) (template question : String)
    (answers : List AnswerRecord) (vmodels : Option (List String))
    (hor : ∀ m p, (parse_json_response (oracle m p).response).hasKey
      "target_model" = false) :
    ∀ r ∈ (verify_answers oracle template question answers vmodels).1,
      vrecCrossOk r = true := by
  intro r hr
  simp only [verify_answers] at hr
  rcases List.mem_filterMap.mp hr with ⟨pr, hpr, hfst⟩
  rcases List.mem_flatMap.mp hpr with ⟨a, ha, hpa⟩
  rcases List.mem_map.mp hpa with ⟨v, hv, hvp⟩
  rw [← hvp] at hfst
  by_cases h1 : get_model_short_name v = get_model_short_name a.model
  · simp [verify_pair, h1] at hfst
  · by_cases h2 : is_model_available v
    · cases hsu : a.success with
      | false =>
          have : synthetic_incorrect_record a v = r := by
            have := hfst
            simp [verify_pair, h1, h2, hsu] at this
            exact this
          rw [← this]
          simp [vrecCrossOk, synthetic_incorrect_record, h1]
      | true =>
          have hrec : (verify_single_answer oracle template question a v).1 = r := by
            have := hfst
            simp [verify_pair, h1, h2, hsu] at this
            exact this
          have hfields := verify_single_answer_fields oracle template question a v
          have htgt := hfields.2 (hor v (verification_prompt template question a))
          rw [← hrec]
          simp [vrecCrossOk, htgt, hfields.1, h1]
    · have h2' : is_model_available v = false := by simpa using h2
      simp [verify_pair, h1, h2'] at hfst

/-- An oracle whose (parseable) verification response names the verifier
itself as `target_model`. -/
def oracleSelfTarget : LLMOracle := fun _ _ =>
  {success := true,
   response := "\x7b\"target_model\": \"groq/llama-3-70b-8192\", \"verdict\": \"Correct\", \"error_reason\": \"\"\x7d",
   error := ""}

/-- C1 counterexample for the claim as stated: when the verifier's parsed
response supplies its own `target_model`, the produced record's target
short identity *equals* the verifier's short identity — the pair
(verifier, answer) was cross-checked on the answer's model field, but the
record's `target_model` field comes from the response. -/
theorem c1_counterexample :
    ((verify_answers oracleSelfTarget "tv" "q" [ansSample]
        (some ["groq/llama-3-70b-8192"])).1.all vrecCrossOk) = false ∧
    ((verify_answers oracleSelfTarget "tv" "q" [ansSample]
        (some ["groq/llama-3-70b-8192"])).1.map
          (fun r => (r.verification_model, r.target_model)))
      = [("groq/llama-3-70b-8192", PyObj.str "groq/llama-3-70b-8192")] :=
  ⟨rfl, rfl⟩

/-- C1 witness: the amended theorem applied to a concrete run (one
successful and one failed answer, one configured verifier, an oracle whose
responses never parse to anything carrying `target_model`). -/
theorem c1_cross_validation_witness :
    ((verify_answers oracleDown "tv" "q" [ansSample, failedAnswerSample]
        (some ["groq/llama-3-70b-8192"])).1.all vrecCrossOk) = true := by
  rw [List.all_eq_true]
  intro r hr
  exact c1_cross_validation oracleDown "tv" "q" [ansSample, failedAnswerSample]
    (some ["groq/llama-3-70b-8192"]) (fun m p => rfl) r hr

/-! ## C2 — zero successful answers -/

/-- C2 (amended): the `LLMLogicSystem` orchestrator short-circuits on zero
successful answers: it returns the initialized results with success =
False, empty stage-2/3 collections and no decision, and the only provider
invocations of the run are the answering stage's. -/
theorem c2_llm_system_short_circuit (oracle : LLMOracle) (templates : Templates)
    (question : String) (am vm : Option (List String)) (cm dm : Option String)
    (h : ((answering_process_question oracle templates.answering question am).1.filter
      (fun r => r.success)).isEmpty = true) :
    (llm_system_process_question oracle templates question am vm cm dm).1.success
        = false ∧
    (llm_system_process_question oracle templates question am vm cm dm).1.verification_results
        = [] ∧
    (llm_system_process_question oracle templates question am vm cm dm).1.correction_results
        = [] ∧
    (llm_system_process_question oracle templates question am vm cm dm).1.final_decision
        = Option.none ∧
    (llm_system_process_question oracle templates question am vm cm dm).1.answering_results
        = (answering_process_question oracle templates.answering question am).1 ∧
    (llm_system_process_question oracle templates question am vm cm dm).2
        = (answering_process_question oracle templates.answering question am).2 := by
  simp only [llm_system_process_question]
  rw [if_pos h]
  exact ⟨rfl, rfl, rfl, rfl, rfl, rfl⟩

/-- C2 witness: the amended theorem applied at a concrete run whose single
configured answering model fails. -/
theorem c2_llm_system_short_circuit_witness :
    (llm_system_process_question oracleDown templatesSample "q"
      (some ["groq/llama-3-70b-8192"]) Option.none Option.none Option.none).1.success
        = false ∧
    (llm_system_process_question oracleDown templatesSample "q"
      (some ["groq/llama-3-70b-8192"]) Option.none Option.none Option.none).1.verification_results
        = [] ∧
    (llm_system_process_question oracleDown templatesSample "q"
      (some ["groq/llama-3-70b-8192"]) Option.none Option.none Option.none).2
        = ["groq/llama-3-70b-8192"] := by
  have h := c2_llm_system_short_circuit oracleDown templatesSample "q"
    (some ["groq/llama-3-70b-8192"]) Option.none Option.none Option.none rfl
  refine ⟨h.1, h.2.1, ?_⟩
  rw [h.2.2.2.2.2]
  rfl

/-- An oracle where only the default decision model answers (with a
parseable decision), while every other provider call fails. -/
def oracleDecisionOnly : LLMOracle := fun m _ =>
  if m = "groq/llama-3.3-70b" then
    {success := true,
     response := "\x7b\"final_answer\": \"X\", \"reasoning\": \"r\", \"evidence_analysis\": \"\"\x7d",
     error := ""}
  else {success := false, response := "", error := "provider down"}

/-- C2 counterexample for the claim as stated: the `SystemCoordinator`
orchestrator (the one `main.py` runs) does not short-circuit.  With zero
successful answers it still produces a verification record, still invokes
the decision model (the provider sees the answering model and then the
decision model), and the run is not reported failed — the summary's
overall_success is the decision model's own success flag, here True. -/
theorem c2_counterexample :
    ((coordinator_process_question oracleDecisionOnly templatesSample "q"
        (some ["groq/llama-3-70b-8192"]) Option.none Option.none Option.none).1.answering.filter
      (fun r => r.success)) = [] ∧
    ((coordinator_process_question oracleDecisionOnly templatesSample "q"
        (some ["groq/llama-3-70b-8192"]) Option.none Option.none Option.none).1.verification.length
      = 1) ∧
    ((coordinator_process_question oracleDecisionOnly templatesSample "q"
        (some ["groq/llama-3-70b-8192"]) Option.none Option.none Option.none).2
      = ["groq/llama-3-70b-8192", "groq/llama-3.3-70b"]) ∧
    ((coordinator_process_question oracleDecisionOnly templatesSample "q"
        (some ["groq/llama-3-70b-8192"]) Option.none Option.none Option.none).1.summary.overall_success
      = true) :=
  ⟨rfl, rfl, rfl, rfl⟩

/-! ## C9 — three-tier parser degradation -/

/-- Well-formed structured text (tier a). -/
def exWellFormed : String := "\x7b\"answer\": \"No\", \"reasoning\": \"ok\"\x7d"

/-- Structured text with a literal line break inside the reasoning field
(tier b). -/
def exLineBreaks : String := "\x7b\"answer\": \"No\", \"reasoning\": \"line1\nline2\"\x7d"

/-- Text with no structured markers at all (tier c). -/
def exUnstructured : String := "I think the answer is no."

/-- C9: on every input the parser lands in exactly one of the three tiers
(strict, repaired, best-effort) — it never returns the error dictionary
and, being a total function, never faults.  Concretely: well-formed text
parses strictly; text with line breaks inside the reasoning field fails
the strict tier and is repaired (the breaks collapsed to single spaces);
markerless text falls through to the flagged best-effort extraction. -/
theorem c9_parser_degradation :
    (∀ s : String,
      (∃ v, json_loads s = some v ∧ parse_json_response s = v) ∨
      (json_loads s = Option.none ∧
        ∃ v, repairedParse s = some v ∧ parse_json_response s = v) ∨
      (json_loads s = Option.none ∧ repairedParse s = Option.none ∧
        parse_json_response s = best_effort_extraction s ∧
        (best_effort_extraction s).hasKey "parse_warning" = true ∧
        (best_effort_extraction s).hasKey "error" = false)) ∧
    json_loads exWellFormed
      = some (PyObj.obj [("answer", .str "No"), ("reasoning", .str "ok")]) ∧
    parse_json_response exWellFormed
      = PyObj.obj [("answer", .str "No"), ("reasoning", .str "ok")] ∧
    json_loads exLineBreaks = Option.none ∧
    repairedParse exLineBreaks
      = some (PyObj.obj [("answer", .str "No"), ("reasoning", .str "line1 line2")]) ∧
    parse_json_response exLineBreaks
      = PyObj.obj [("answer", .str "No"), ("reasoning", .str "line1 line2")] ∧
    json_loads exUnstructured = Option.none ∧
    repairedParse exUnstructured = Option.none ∧
    parse_json_response exUnstructured = best_effort_extraction exUnstructured ∧
    (parse_json_response exUnstructured).hasKey "parse_warning" = true := by
  refine ⟨?_, rfl, rfl, rfl, rfl, rfl, rfl, rfl, rfl, rfl⟩
  intro s
  cases h1 : json_loads s with
  | some v => exact Or.inl ⟨v, rfl, by simp [parse_json_response, h1]⟩
  | none =>
    cases h2 : repairedParse s with
    | some v =>
        exact Or.inr (Or.inl ⟨rfl, v, rfl, by simp [parse_json_response, h1, h2]⟩)
    | none =>
        exact Or.inr (Or.inr ⟨rfl, rfl, by simp [parse_json_response, h1, h2], rfl, rfl⟩)

/-! ## C10 — the best-effort tier shields the layers from parse failures -/

theorem get_model_answer_success (oracle : LLMOracle) (m p : String)
    (hm : is_model_available m = true)
    (hsucc : (oracle m p).success = true)
    (hobj : ∃ kvs, parse_json_response (oracle m p).response = .obj kvs ∧
      lookupKey kvs "error" = Option.none) :
    (get_model_answer oracle m p).1.success = true := by
  rcases hobj with ⟨kvs, hkvs, hkerr⟩
  simp only [get_model_answer, call_model_available oracle m p hm]
  simp [hsucc, hkvs, hkerr]

theorem verify_single_answer_success (oracle : LLMOracle) (t q : String)
    (a : AnswerRecord) (v : String) (hm : is_model_available v = true)
    (hsucc : (oracle v (verification_prompt t q a)).success = true)
    (hobj : ∃ kvs,
      parse_json_response (oracle v (verification_prompt t q a)).response = .obj kvs ∧
      lookupKey kvs "error" = Option.none) :
    (verify_single_answer oracle t q a v).1.success = true := by
  rcases hobj with ⟨kvs, hkvs, hkerr⟩
  simp only [verify_single_answer, call_model_available oracle v _ hm]
  simp [hsucc, hkvs, hkerr]

theorem correct_single_answer_success (oracle : LLMOracle) (t q : String)
    (a : AnswerRecord) (v0 : VerificationRecord) (cm : String)
    (hm : is_model_available cm = true)
    (hsucc : (oracle cm (correction_prompt t q a v0)).success = true)
    (hobj : ∃ kvs,
      parse_json_response (oracle cm (correction_prompt t q a v0)).response = .obj kvs ∧
      lookupKey kvs "error" = Option.none) :
    (correct_single_answer oracle t q a v0 cm).1.success = some true := by
  rcases hobj with ⟨kvs, hkvs, hkerr⟩
  simp only [correct_single_answer, call_model_available oracle cm _ hm]
  simp [hsucc, hkvs, hkerr]

/-- C10: whenever both the strict parse and the repaired re-parse fail,
`parse_json_response` returns the best-effort dictionary — with `answer`,
`reasoning` and `parse_warning` keys, placeholders when no pattern
matched, and *never* an `error` key — so the parse-failure branches of the
answering, verification and correction layers (which test `'error' in
parsed`) cannot fire on unparseable text: a successful invocation whose
response is such text always yields a successful record. -/
theorem c10_unparseable_never_error (s : String)
    (h1 : json_loads s = Option.none) (h2 : repairedParse s = Option.none) :
    parse_json_response s = best_effort_extraction s ∧
    (parse_json_response s).hasKey "answer" = true ∧
    (parse_json_response s).hasKey "reasoning" = true ∧
    (parse_json_response s).hasKey "parse_warning" = true ∧
    (parse_json_response s).hasKey "error" = false ∧
    (searchAnswerField s.toList = Option.none →
     searchReasoningPrefixField s.toList = Option.none →
      parse_json_response s = PyObj.obj
        [("answer", .str "解析失敗"),
         ("reasoning", .str ("推理過程解析失敗" ++ "...(JSON格式錯誤，僅提取部分內容)")),
         ("parse_warning", .bool true)]) ∧
    (∀ m p : String, is_model_available m = true →
      (get_model_answer (fun _ _ => {success := true, response := s, error := ""})
        m p).1.success = true) ∧
    (∀ (t q : String) (a : AnswerRecord) (v : String),
      is_model_available v = true →
      (verify_single_answer (fun _ _ => {success := true, response := s, error := ""})
        t q a v).1.success = true) ∧
    (∀ (t q : String) (a : AnswerRecord) (v0 : VerificationRecord) (cm : String),
      is_model_available cm = true →
      (correct_single_answer (fun _ _ => {success := true, response := s, error := ""})
        t q a v0 cm).1.success = some true) := by
  have hp : parse_json_response s = best_effort_extraction s := by
    simp [parse_json_response, h1, h2]
  have hbe : ∃ kvs, best_effort_extraction s = PyObj.obj kvs ∧
      lookupKey kvs "error" = Option.none := ⟨_, rfl, rfl⟩
  rcases hbe with ⟨kvs, hk1, hk2⟩
  refine ⟨hp, by rw [hp]; rfl, by rw [hp]; rfl, by rw [hp]; rfl, by rw [hp]; rfl,
    ?_, ?_, ?_, ?_⟩
  · intro hA hR
    rw [hp]
    have hA' : searchAnswerField s.data = Option.none := hA
    have hR' : searchReasoningPrefixField s.data = Option.none := hR
    simp [best_effort_extraction, hA', hR']
    rfl
  · intro m p hm
    exact get_model_answer_success _ m p hm rfl ⟨kvs, hp.trans hk1, hk2⟩
  · intro t q a v hm
    exact verify_single_answer_success _ t q a v hm rfl ⟨kvs, hp.trans hk1, hk2⟩
  · intro t q a v0 cm hm
    exact correct_single_answer_success _ t q a v0 cm hm rfl ⟨kvs, hp.trans hk1, hk2⟩

/-- C10 witness: the theorem applied to concrete markerless text, with the
answering layer fed that text as a successful invocation's response. -/
theorem c10_unparseable_never_error_witness :
    parse_json_response exUnstructured = best_effort_extraction exUnstructured ∧
    (parse_json_response exUnstructured).hasKey "error" = false ∧
    (get_model_answer (fun _ _ => {success := true, response := exUnstructured, error := ""})
      "groq/llama-3-70b-8192" "p").1.success = true := by
  have h := c10_unparseable_never_error exUnstructured rfl rfl
  exact ⟨h.1, h.2.2.2.2.1, h.2.2.2.2.2.2.1 "groq/llama-3-70b-8192" "p" rfl⟩
